import Mathlib

/-!
Shallow embedding of the bracket engine of the `aux-analytics` song-tournament
application (`app/services/tournament_service.py`, `app/models.py`,
`app/blueprints/tournaments/routes.py`, `app/blueprints/voting/routes.py`),
together with theorems settling the specification claims about it.

Conventions:
* SQL integer ids are `Nat`; Unix timestamps are `Int`.
* Nullable columns are `Option _`; Python truthiness on a nullable id or
  timestamp (`if x:`) is `truthy*` below (`None` and `0` are falsy).
* `sorted(..., key=..., reverse=True)` (a stable sort) is embedded as
  `List.insertionSort` with the corresponding non-strict comparator, which is
  also stable, hence produces the identical output list.
-/

namespace AuxAnalytics

/-- Truthiness of a nullable integer id (Python `if x:`). -/
def truthyN (o : Option Nat) : Bool := o.getD 0 != 0

/-- Truthiness of a nullable timestamp (Python `if x:`). -/
def truthyZ (o : Option Int) : Bool := o.getD 0 != 0

/-! ### Bracket size and byes (`TournamentService.generate_matchups`, lines 124-126)

`bracket_size = 2 ** math.ceil(math.log2(song_count))`; `math.ceil(math.log2 n)`
is `Nat.clog 2 n` for `n ≥ 1`. -/

/-- `bracket_size = 2 ** math.ceil(math.log2(song_count))`. -/
def bracketSize (n : Nat) : Nat := 2 ^ Nat.clog 2 n

/-- `num_byes = bracket_size - song_count`. -/
def numByes (n : Nat) : Nat := bracketSize n - n

/-- `Tournament.get_num_rounds_needed` (`models.py` 85-92). -/
def get_num_rounds_needed (n : Nat) : Nat :=
  if n < 2 then 0 else Nat.clog 2 n

/-- `TournamentService.generate_rounds` (`tournament_service.py` 10-43):
creates one round per number `1 .. num_rounds`; we record the round numbers. -/
def generate_rounds (n : Nat) : List Nat :=
  if n < 2 then [] else (List.range (get_num_rounds_needed n)).map (· + 1)

/-! ### Matchup generation (`TournamentService.generate_matchups`, lines 96-211)

A bracket matchup is identified by its (round, position) arena index; the
`next_matchup_id` foreign key becomes the position of the linked matchup in the
following round. -/

/-- One matchup row as created by the bracket builder. -/
structure BMatchup where
  song1 : Option Nat := none
  song2 : Option Nat := none
  next : Option Nat := none
  deriving Repr, DecidableEq

/-- Round-1 matchups (lines 128-147): songs `seeded_songs[num_byes:]`, matchup
`i` pairs `songs_in_round_1[i]` against `songs_in_round_1[-(i+1)]`. -/
def round1Matchups (seeds : List Nat) : List BMatchup :=
  let r1 := seeds.drop (numByes seeds.length)
  (List.range (r1.length / 2)).map fun i =>
    { song1 := some (r1.getD i 0), song2 := some (r1.getD (r1.length - 1 - i) 0) }

/-- Round-2 matchup creation (lines 167-188): `cnt` fresh matchups, the first
`len(bye_songs)//2` of which pair `bye_songs[i]` against `bye_songs[-(i+1)]`. -/
def round2Assign (byes : List Nat) (cnt : Nat) : List BMatchup :=
  (List.range cnt).map fun i =>
    if i < byes.length / 2 then
      { song1 := some (byes.getD i 0), song2 := some (byes.getD (byes.length - 1 - i) 0) }
    else {}

/-- Linking a round's matchups forward (lines 190-199):
`prev_matchup[i].next_matchup_id = this_round_matchups[offset + i // 2]`. -/
def linkNext (ms : List BMatchup) (offset : Nat) : List BMatchup :=
  ms.mapIdx fun i m => { m with next := some (offset + i / 2) }

/-- Fresh empty matchups for a later round. -/
def emptyMs (cnt : Nat) : List BMatchup := (List.range cnt).map fun _ => {}

/-- The per-round loop of `generate_matchups` (lines 155-201). `k` is the
number of rounds still to create, `rn` the round number being created, `prev`
the (not yet linked) matchups of round `rn - 1`. -/
def buildLoop (byes : List Nat) (nb : Nat) : Nat → Nat → List BMatchup → List (List BMatchup)
  | 0, _, prev => [prev]
  | k + 1, rn, prev =>
    let cnt := if rn = 2 then (prev.length + nb) / 2 else prev.length / 2
    let cur := if rn = 2 then round2Assign byes cnt else emptyMs cnt
    let off := if rn = 2 then byes.length / 2 else 0
    linkNext prev off :: buildLoop byes nb k (rn + 1) cur

/-- `TournamentService.generate_matchups` as a pure function from the seeded
song-id list to the per-round matchup lists (arena-indexed links). -/
def generate_matchups (seeds : List Nat) : List (List BMatchup) :=
  let n := seeds.length
  if n < 2 then []
  else buildLoop (seeds.take (numByes n)) (numByes n) (Nat.clog 2 n - 1) 2 (round1Matchups seeds)

/-- The songs placed in Round-1 matchups, in matchup order. -/
def round1Songs (seeds : List Nat) : List Nat :=
  ((round1Matchups seeds).map fun m => m.song1.getD 0) ++
    ((round1Matchups seeds).map fun m => m.song2.getD 0)

/-- All songs placed in any matchup slot anywhere in the generated bracket. -/
def bracketSongs (seeds : List Nat) : List Nat :=
  ((generate_matchups seeds).map fun rm =>
    (rm.map fun m => m.song1.toList ++ m.song2.toList).foldr (· ++ ·) []).foldr (· ++ ·) []

/-! ### Bracket-size arithmetic -/

lemma clog2_two : Nat.clog 2 2 = 1 := by simp [Nat.clog]

lemma clog2_five : Nat.clog 2 5 = 3 := by simp [Nat.clog]

lemma clog2_eight : Nat.clog 2 8 = 3 := by simp [Nat.clog]

/-- `bracketSize n` is at least `n`. -/
lemma le_bracketSize (n : Nat) : n ≤ bracketSize n :=
  Nat.le_pow_clog (by norm_num) n

/-- `bracketSize n` is the least power of two that is `≥ n`. -/
lemma bracketSize_min {n m : Nat} (h : n ≤ 2 ^ m) : bracketSize n ≤ 2 ^ m :=
  Nat.pow_le_pow_right (by norm_num) ((Nat.le_pow_iff_clog_le (by norm_num)).1 h)

/-- For `n ≥ 2` the bracket size is below `2n`, so fewer than `n` byes. -/
lemma bracketSize_lt_two_mul {n : Nat} (h : 2 ≤ n) : bracketSize n < 2 * n := by
  have hc : 0 < Nat.clog 2 n := Nat.clog_pos (by norm_num) h
  have hlt : 2 ^ (Nat.clog 2 n).pred < n := Nat.pow_pred_clog_lt_self (by norm_num) h
  have hsz : bracketSize n = 2 ^ (Nat.clog 2 n).pred * 2 := by
    unfold bracketSize
    conv_lhs => rw [← Nat.succ_pred_eq_of_pos hc]
    rw [Nat.pow_succ]
  omega

lemma numByes_lt {n : Nat} (h : 2 ≤ n) : numByes n < n := by
  have h1 := bracketSize_lt_two_mul h
  unfold numByes
  omega

/-- The number of songs entering Round 1 is even. -/
lemma two_dvd_nonbye_count {n : Nat} (h : 2 ≤ n) : 2 ∣ (n - numByes n) := by
  have hc : 0 < Nat.clog 2 n := Nat.clog_pos (by norm_num) h
  have hsz : bracketSize n = 2 ^ (Nat.clog 2 n).pred * 2 := by
    unfold bracketSize
    conv_lhs => rw [← Nat.succ_pred_eq_of_pos hc]
    rw [Nat.pow_succ]
  have h1 := le_bracketSize n
  have h2 := bracketSize_lt_two_mul h
  unfold numByes
  omega

/-! ### Round-1 accounting (claim C6) -/

lemma map_range_getD_eq_take {α : Type} (l : List α) (d : α) (k : Nat) (hk : k ≤ l.length) :
    (List.range k).map (fun i => l.getD i d) = l.take k := by
  apply List.ext_getElem
  · simp [hk]
  · intro i h1 h2
    simp only [List.length_map, List.length_range] at h1
    simp [List.getElem_range, List.getD_eq_getElem?_getD, List.getElem?_eq_getElem
      (show i < l.length by omega)]

lemma map_range_getD_rev_eq_reverse_drop {α : Type} (l : List α) (d : α) (k : Nat)
    (hk : l.length = 2 * k) :
    (List.range k).map (fun i => l.getD (l.length - 1 - i) d) = (l.drop k).reverse := by
  apply List.ext_getElem
  · simp; omega
  · intro i h1 h2
    simp only [List.length_map, List.length_range] at h1
    have hd : l.length - 1 - i < l.length := by omega
    simp only [List.getElem_map, List.getElem_range, List.getElem_reverse, List.getElem_drop,
      List.getD_eq_getElem?_getD, List.getElem?_eq_getElem hd, Option.getD_some, List.length_drop]
    congr 1
    omega

/-- The Round-1 matchups pair each of the `n - numByes n` non-bye songs exactly once:
byes ++ Round-1 songs is a permutation of the seed list. -/
lemma byes_append_round1Songs_perm (seeds : List Nat) (h2 : 2 ≤ seeds.length) :
    (seeds.take (numByes seeds.length) ++ round1Songs seeds).Perm seeds := by
  set n := seeds.length with hn
  set nb := numByes n with hnb
  set r1 := seeds.drop nb with hr1
  have hlen : r1.length = n - nb := by simp [hr1, hn]
  have hdvd : 2 ∣ (n - nb) := two_dvd_nonbye_count h2
  have hk : r1.length = 2 * (r1.length / 2) := by
    rw [hlen]; omega
  have hfst : (round1Matchups seeds).map (fun m => m.song1.getD 0) =
      r1.take (r1.length / 2) := by
    rw [round1Matchups, List.map_map]
    exact map_range_getD_eq_take r1 0 (r1.length / 2) (Nat.div_le_self _ _)
  have hsnd : (round1Matchups seeds).map (fun m => m.song2.getD 0) =
      (r1.drop (r1.length / 2)).reverse := by
    rw [round1Matchups, List.map_map]
    exact map_range_getD_rev_eq_reverse_drop r1 0 (r1.length / 2) hk
  have : round1Songs seeds = r1.take (r1.length / 2) ++ (r1.drop (r1.length / 2)).reverse := by
    rw [round1Songs, hfst, hsnd]
  rw [this]
  have hinner : (r1.take (r1.length / 2) ++ (r1.drop (r1.length / 2)).reverse).Perm r1 := by
    have hstep : (r1.take (r1.length / 2) ++ (r1.drop (r1.length / 2)).reverse).Perm
        (r1.take (r1.length / 2) ++ r1.drop (r1.length / 2)) :=
      List.Perm.append_left _ (List.reverse_perm _)
    rw [List.take_append_drop] at hstep
    exact hstep
  have houter : (seeds.take nb ++ (r1.take (r1.length / 2) ++
      (r1.drop (r1.length / 2)).reverse)).Perm (seeds.take nb ++ r1) :=
    List.Perm.append_left _ hinner
  have hsplit : seeds.take nb ++ r1 = seeds := by
    rw [hr1]
    exact List.take_append_drop _ _
  rw [hsplit] at houter
  exact houter

lemma buildLoop_length (byes : List Nat) (nb : Nat) :
    ∀ (k rn : Nat) (prev : List BMatchup), (buildLoop byes nb k rn prev).length = k + 1
  | 0, _, _ => rfl
  | k + 1, rn, prev => by
    simp only [buildLoop, List.length_cons, buildLoop_length byes nb k]

lemma generate_matchups_length (seeds : List Nat) (h2 : 2 ≤ seeds.length) :
    (generate_matchups seeds).length = Nat.clog 2 seeds.length := by
  have hc : 0 < Nat.clog 2 seeds.length := Nat.clog_pos (by norm_num) h2
  rw [generate_matchups]
  simp only [if_neg (by omega : ¬ seeds.length < 2)]
  rw [buildLoop_length]
  omega

lemma generate_rounds_length (n : Nat) (h2 : 2 ≤ n) :
    (generate_rounds n).length = Nat.clog 2 n := by
  rw [generate_rounds, get_num_rounds_needed]
  simp [if_neg (by omega : ¬ n < 2)]

/-- The conclusion of claim C6 for a seed list. -/
def BracketAccounting (seeds : List Nat) : Prop :=
  (generate_rounds seeds.length).length = Nat.clog 2 seeds.length ∧
  (generate_matchups seeds).length = Nat.clog 2 seeds.length ∧
  bracketSize seeds.length = 2 ^ Nat.clog 2 seeds.length ∧
  seeds.length ≤ bracketSize seeds.length ∧
  (∀ m, seeds.length ≤ 2 ^ m → bracketSize seeds.length ≤ 2 ^ m) ∧
  numByes seeds.length = bracketSize seeds.length - seeds.length ∧
  (seeds.take (numByes seeds.length) ++ round1Songs seeds).Perm seeds ∧
  (seeds.Nodup → (seeds.take (numByes seeds.length) ++ round1Songs seeds).Nodup)

/-- **C6** (confirmed). For every seed list of N ≥ 2 songs the builder creates exactly
⌈log₂ N⌉ rounds (both the round records of `generate_rounds` and the per-round matchup
lists of `generate_matchups`), `bracketSize` is the least power of two ≥ N,
`numByes = bracketSize − N`, and the byes together with the Round-1 matchup songs are a
permutation of the seed list — every song accounted for exactly once (no duplicates when
the seed list has none). -/
theorem generate_matchups_round_count_and_accounting (seeds : List Nat)
    (h2 : 2 ≤ seeds.length) : BracketAccounting seeds := by
  refine ⟨generate_rounds_length _ h2, generate_matchups_length _ h2, rfl,
    le_bracketSize _, fun m hm => bracketSize_min hm, rfl,
    byes_append_round1Songs_perm _ h2, fun hnd => ?_⟩
  exact ((byes_append_round1Songs_perm _ h2).nodup_iff).2 hnd

/-- Witness for C6 at the concrete 5-song seed list `[1,2,3,4,5]`. -/
theorem generate_matchups_round_count_and_accounting_witness :
    2 ≤ ([1, 2, 3, 4, 5] : List Nat).length ∧ BracketAccounting [1, 2, 3, 4, 5] :=
  ⟨by decide, generate_matchups_round_count_and_accounting [1, 2, 3, 4, 5] (by decide)⟩

/-! ### Claim C1: where the top two seeds can first meet

The spec claims the bracket shape lets seeds 1 and 2 meet only in the final.  In the
code, Round-1 matchup `i` pairs seed `numByes+i+1` against seed `N-i`, and consecutive
Round-1 matchups feed the **same** next-round matchup (`next_matchup_idx = i // 2`),
so the matchups holding seeds 1 and 2 converge one round later, not at the final. -/

/-- **C1** (code bug, failing input: 8 songs seeded 1..8). The Round-1 matchups
containing overall seeds 1 and 2 are positions 0 and 1, both of which link to Round-2
matchup 0, while the bracket has 3 rounds — so the two top seeds' paths converge in
Round 2, one full round before the final. -/
theorem top_two_seeds_paths_converge_in_round_two :
    ((generate_matchups [1, 2, 3, 4, 5, 6, 7, 8]).getD 0 []).getD 0 {} =
      { song1 := some 1, song2 := some 8, next := some 0 } ∧
    ((generate_matchups [1, 2, 3, 4, 5, 6, 7, 8]).getD 0 []).getD 1 {} =
      { song1 := some 2, song2 := some 7, next := some 0 } ∧
    (generate_matchups [1, 2, 3, 4, 5, 6, 7, 8]).length = 3 := by
  refine ⟨?_, ?_, ?_⟩ <;>
    simp [generate_matchups, buildLoop, round1Matchups, round2Assign, emptyMs, linkNext,
      numByes, bracketSize, Nat.clog, List.range_succ]

/-! ### Claim C2: the 5-song bracket

For N = 5 the code produces Round 1 = [seed 4 vs seed 5] and pairs only
`numByes // 2 = 1` bye pair into Round 2 (seed 1 vs seed 3).  The middle bye, seed 2,
is never written into any matchup slot of any round: with an odd number of byes one bye
song silently drops out of the tournament. -/

/-- **C2** (code bug, failing input: 5 songs seeded 1..5). The generated bracket is
Round 1 = [4 vs 5 → R2 slot 1], Round 2 = [1 vs 3, empty slot], Final — and seed 2
appears in no matchup slot of any round, contradicting the claim that it is paired with
the Round-1 winner. -/
theorem five_song_bracket_drops_middle_bye :
    generate_matchups [1, 2, 3, 4, 5] =
      [[{ song1 := some 4, song2 := some 5, next := some 1 }],
       [{ song1 := some 1, song2 := some 3, next := some 0 },
        { song1 := none, song2 := none, next := some 0 }],
       [{ song1 := none, song2 := none, next := none }]] ∧
    (2 : Nat) ∉ bracketSongs [1, 2, 3, 4, 5] := by
  constructor <;>
    simp [bracketSongs, generate_matchups, buildLoop, round1Matchups, round2Assign, emptyMs,
      linkNext, numByes, bracketSize, Nat.clog, List.range_succ]

/-! ### Persistent state: rounds, matchups, votes (`app/models.py`)

A single tournament's mutable rows.  ORM objects are identified by primary key;
row mutation is embedded as a map over the row list guarded by the primary key
(equivalent for the unique keys the schema enforces). -/

/-- `status` column of `rounds` and `matchups` (strings in the schema). -/
inductive RowStatus
  | pending | active | completed
  deriving Repr, DecidableEq

/-- A `rounds` row. -/
structure DBRound where
  id : Nat
  round_number : Nat
  status : RowStatus
  start_date : Option Int := none
  end_date : Option Int := none
  deriving Repr, DecidableEq

/-- A `matchups` row. -/
structure DBMatchup where
  id : Nat
  round_id : Nat
  song1_id : Option Nat := none
  song2_id : Option Nat := none
  winner_song_id : Option Nat := none
  next_matchup_id : Option Nat := none
  status : RowStatus := .pending
  deriving Repr, DecidableEq

/-- A `votes` row (timestamps omitted; they carry no logic). -/
structure DBVote where
  user_id : Nat
  matchup_id : Nat
  song_id : Nat
  is_vote_changed : Bool := false
  deriving Repr, DecidableEq

/-- The mutable rows of one tournament plus its `status` string. -/
structure DBState where
  rounds : List DBRound
  matchups : List DBMatchup
  votes : List DBVote
  tournament_status : String
  deriving Repr, DecidableEq

/-- `Round.query.get` / `filter_by(id=...)`. -/
def findRound (st : DBState) (rid : Nat) : Option DBRound :=
  st.rounds.find? fun r => r.id == rid

/-- `Matchup.query.get` / `filter_by(id=...)`. -/
def findMatchup (st : DBState) (mid : Nat) : Option DBMatchup :=
  st.matchups.find? fun m => m.id == mid

/-- Mutating the round row with primary key `rid`. -/
def updRound (st : DBState) (rid : Nat) (f : DBRound → DBRound) : DBState :=
  { st with rounds := st.rounds.map fun r => if r.id == rid then f r else r }

/-- Mutating the matchup row with primary key `mid`. -/
def updMatchup (st : DBState) (mid : Nat) (f : DBMatchup → DBMatchup) : DBState :=
  { st with matchups := st.matchups.map fun m => if m.id == mid then f m else m }

/-- `Matchup.get_vote_count` (`models.py` 309-311). -/
def get_vote_count (st : DBState) (mid sid : Nat) : Nat :=
  (st.votes.filter fun v => v.matchup_id == mid && v.song_id == sid).length

/-- `Matchup.get_winner` (`models.py` 313-328): stored winner if truthy, else `None` when a
slot is missing, else the strict vote-count majority, else `None` on a tie. -/
def get_winner (st : DBState) (m : DBMatchup) : Option Nat :=
  if truthyN m.winner_song_id then m.winner_song_id
  else if ¬ truthyN m.song1_id ∨ ¬ truthyN m.song2_id then none
  else
    let s1 := m.song1_id.getD 0
    let s2 := m.song2_id.getD 0
    let c1 := get_vote_count st m.id s1
    let c2 := get_vote_count st m.id s2
    if c1 > c2 then some s1 else if c2 > c1 then some s2 else none

/-! ### Round advancement (`TournamentService.advance_round`, lines 213-291) -/

/-- `matchup.winner_song_id = winner.id; matchup.status = 'completed'` (lines 240-241). -/
def storeWinner (w : Nat) (mm : DBMatchup) : DBMatchup :=
  { mm with winner_song_id := some w, status := .completed }

/-- `next_matchup.song1_id = winner.id` (line 249). -/
def fillSlot1 (w : Nat) (x : DBMatchup) : DBMatchup := { x with song1_id := some w }

/-- `next_matchup.song2_id = winner.id` (line 252). -/
def fillSlot2 (w : Nat) (x : DBMatchup) : DBMatchup := { x with song2_id := some w }

/-- The body of the winner-propagation loop (lines 236-253) for one matchup id:
resolve `get_winner`; if a winner exists, store it, mark the matchup completed, and (if a
truthy next link resolves to a row) put the winner in slot 1 if that is empty, else slot 2
if that is empty, else do nothing. The counter is `winners_advanced`. -/
def advance_matchup_step (st : DBState) (cnt : Nat) (mid : Nat) : DBState × Nat :=
  match findMatchup st mid with
  | none => (st, cnt)
  | some m =>
    match get_winner st m with
    | none => (st, cnt)
    | some w =>
      if truthyN m.next_matchup_id then
        match findMatchup (updMatchup st mid (storeWinner w)) (m.next_matchup_id.getD 0) with
        | none => (updMatchup st mid (storeWinner w), cnt)
        | some nm =>
          if ¬ truthyN nm.song1_id then
            (updMatchup (updMatchup st mid (storeWinner w)) nm.id (fillSlot1 w), cnt + 1)
          else if ¬ truthyN nm.song2_id then
            (updMatchup (updMatchup st mid (storeWinner w)) nm.id (fillSlot2 w), cnt + 1)
          else (updMatchup st mid (storeWinner w), cnt)
      else (updMatchup st mid (storeWinner w), cnt)

/-- Return value of `advance_round` (the dict of lines 271-290; `next_round` holds the
activated round's number instead of its display name). -/
structure AdvanceResult where
  winners_advanced : Nat
  next_round : Option Nat
  tournament_completed : Bool
  final_winner : Option Nat := none
  deriving Repr, DecidableEq

/-- Lines 227-229 of `advance_round`: mark the current round completed and stamp its
end time, unconditionally. -/
def advRoundStamp (st : DBState) (rid : Nat) (now : Int) : DBState :=
  updRound st rid fun r => { r with status := .completed, end_date := some now }

/-- The primary keys of the closed round's matchups, fetched once before the loop
(line 232). -/
def roundMatchupIds (st : DBState) (rid : Nat) : List Nat :=
  (st.matchups.filter fun m => m.round_id == rid).map (·.id)

/-- The winner-propagation loop of lines 236-253, folded over the round's matchups. -/
def advanceLoop (st : DBState) (rid : Nat) : DBState × Nat :=
  (roundMatchupIds st rid).foldl (fun p mid => advance_matchup_step p.1 p.2 mid) (st, 0)

/-- Lines 255-290: activate the next round (stamping its start and the tournament
status) or, when none exists, mark the tournament completed and surface the winner of
the round's first matchup. -/
def advance_finish (st1 : DBState) (winners : Nat) (currentRoundId : Nat)
    (mids : List Nat) (now : Int) : DBState × AdvanceResult :=
  match st1.rounds.find? fun r =>
      r.round_number == ((findRound st1 currentRoundId).map (·.round_number)).getD 0 + 1 with
  | some nr =>
    ({ updRound st1 nr.id fun r => { r with status := .active, start_date := some now } with
        tournament_status := "voting_round_" ++ toString nr.round_number },
     { winners_advanced := winners, next_round := some nr.round_number,
       tournament_completed := false })
  | none =>
    ({ st1 with tournament_status := "completed" },
     { winners_advanced := 0, next_round := none, tournament_completed := true,
       final_winner :=
         match mids.head? with
         | some mid =>
           match findMatchup { st1 with tournament_status := "completed" } mid with
           | some m => get_winner { st1 with tournament_status := "completed" } m
           | none => none
         | none => none })

/-- `TournamentService.advance_round`: stamp the round completed, fold the propagation
step over its matchups, then activate the next round (updating the tournament status to
`voting_round_` of the next number) or mark the tournament completed. -/
def advance_round (st : DBState) (currentRoundId : Nat) (now : Int) : DBState × AdvanceResult :=
  advance_finish
    (advanceLoop (advRoundStamp st currentRoundId now) currentRoundId).1
    (advanceLoop (advRoundStamp st currentRoundId now) currentRoundId).2
    currentRoundId
    (roundMatchupIds (advRoundStamp st currentRoundId now) currentRoundId)
    now

/-- Errors surfaced by the round-management routes. -/
inductive RouteError
  | notFound | roundNotActive | roundNotExtendable
  deriving Repr, DecidableEq

/-- `end_round_early` (`tournaments/routes.py` 233-265), the sole caller of
`advance_round`: a round that is not `active` is rejected before anything is mutated.
(The creator-authorization and tournament-membership guards are HTTP-layer concerns and
are outside this single-tournament state.) -/
def end_round_early (st : DBState) (roundId : Nat) (now : Int) :
    Except RouteError (DBState × AdvanceResult) :=
  match findRound st roundId with
  | none => .error .notFound
  | some r =>
    if r.status ≠ .active then .error .roundNotActive
    else .ok (advance_round st roundId now)

/-- Lines 294-301: the target round's new end time — its old end time plus
`extension_hours` hours, or `now` plus the extension when no truthy end time is set. -/
def extendTargetRow (extensionHours now : Int) (rr : DBRound) : DBRound :=
  { rr with end_date :=
      if truthyZ rr.end_date then some (rr.end_date.getD 0 + extensionHours * 3600)
      else some (now + extensionHours * 3600) }

/-- Lines 303-311: every round with a larger round number has its truthy start and end
times shifted by `extension_hours` hours. -/
def cascadeRow (r0num : Nat) (extensionHours : Int) (rr : DBRound) : DBRound :=
  if rr.round_number > r0num then
    { rr with
      start_date :=
        if truthyZ rr.start_date then some (rr.start_date.getD 0 + extensionHours * 3600)
        else rr.start_date,
      end_date :=
        if truthyZ rr.end_date then some (rr.end_date.getD 0 + extensionHours * 3600)
        else rr.end_date }
  else rr

/-- `extend_round` (`tournaments/routes.py` 268-319): push the target round's end time
out by `extension_hours` (from `now` if it had no truthy end time), then shift the start
and end times of every round with a larger round number by the same amount. -/
def extend_round (st : DBState) (roundId : Nat) (extensionHours : Int) (now : Int) :
    Except RouteError DBState :=
  match findRound st roundId with
  | none => .error .notFound
  | some r0 =>
    if r0.status ≠ .active ∧ r0.status ≠ .pending then .error .roundNotExtendable
    else
      .ok { updRound st roundId (extendTargetRow extensionHours now) with
            rounds := (updRound st roundId (extendTargetRow extensionHours now)).rounds.map
              (cascadeRow r0.round_number extensionHours) }

/-! ### Vote casting (`voting/routes.py` 140-191) -/

/-- Errors surfaced by the `vote` route. -/
inductive VoteError
  | matchupNotFound | invalidSong | roundMissing | roundNotActive | deadlinePassed
  deriving Repr, DecidableEq

/-- The `(user_id, matchup_id)` unique-key predicate of the `votes` table. -/
def voteKey (u mid : Nat) : DBVote → Bool := fun v => v.user_id == u && v.matchup_id == mid

/-- Mutating the first `votes` row matching the `(user_id, matchup_id)` unique key:
the user is changing their vote (lines 172-177). -/
def updateFirstVote : List DBVote → Nat → Nat → Nat → List DBVote
  | [], _, _, _ => []
  | v :: vs, uid, mid, sid =>
    if v.user_id == uid && v.matchup_id == mid then
      { v with song_id := sid, is_vote_changed := true } :: vs
    else v :: updateFirstVote vs uid mid sid

/-- The `vote` route: validate the song is one of the matchup's slots, the round is
`active` and the truthy deadline has not passed, then record / change / re-confirm the
user's single vote.  The returned `Bool` is the `vote_changed` flag of the response. -/
def castVote (st : DBState) (userId matchupId songId : Nat) (now : Int) :
    Except VoteError (DBState × Bool) :=
  match findMatchup st matchupId with
  | none => .error .matchupNotFound
  | some m =>
    if ¬ (some songId = m.song1_id ∨ some songId = m.song2_id) then .error .invalidSong
    else
      match findRound st m.round_id with
      | none => .error .roundMissing
      | some r =>
        if r.status ≠ .active then .error .roundNotActive
        else if truthyZ r.end_date ∧ now > r.end_date.getD 0 then .error .deadlinePassed
        else
          match st.votes.find? (voteKey userId matchupId) with
          | some existing =>
            if existing.song_id ≠ songId then
              (.ok ({ st with votes := updateFirstVote st.votes userId matchupId songId }, true))
            else
              (.ok (st, false))
          | none =>
            (.ok ({ st with votes :=
              st.votes ++ [{ user_id := userId, matchup_id := matchupId, song_id := songId }] },
              false))

/-! ### Row-lookup lemmas -/

instance : Inhabited DBRound := ⟨⟨0, 0, .pending, none, none⟩⟩

instance : Inhabited DBMatchup := ⟨⟨0, 0, none, none, none, none, .pending⟩⟩

lemma find_map_ite_eq (l : List DBMatchup) (mid : Nat) (f : DBMatchup → DBMatchup)
    (hf : ∀ m, (f m).id = m.id) :
    (l.map fun m => if m.id == mid then f m else m).find? (fun m => m.id == mid)
      = (l.find? fun m => m.id == mid).map f := by
  induction l with
  | nil => rfl
  | cons a t ih =>
    rw [List.map_cons]
    by_cases h : (a.id == mid) = true
    · have hfa : ((f a).id == mid) = true := by rw [hf]; exact h
      rw [if_pos h,
        @List.find?_cons_of_pos _ (fun m => m.id == mid) (f a) _ hfa,
        @List.find?_cons_of_pos _ (fun m => m.id == mid) a _ h]
      rfl
    · rw [if_neg h,
        @List.find?_cons_of_neg _ (fun m => m.id == mid) a _ h,
        @List.find?_cons_of_neg _ (fun m => m.id == mid) a _ h, ih]

lemma find_map_ite_ne (l : List DBMatchup) (mid mid' : Nat) (f : DBMatchup → DBMatchup)
    (hf : ∀ m, (f m).id = m.id) (hne : mid' ≠ mid) :
    (l.map fun m => if m.id == mid then f m else m).find? (fun m => m.id == mid')
      = l.find? fun m => m.id == mid' := by
  induction l with
  | nil => rfl
  | cons a t ih =>
    rw [List.map_cons]
    by_cases h : (a.id == mid) = true
    · have ha : a.id = mid := by simpa using h
      have h1 : ¬ (((f a).id == mid') = true) := by
        rw [hf]
        simp [ha]
        omega
      have h2 : ¬ ((a.id == mid') = true) := by
        simp [ha]
        omega
      rw [if_pos h,
        @List.find?_cons_of_neg _ (fun m => m.id == mid') (f a) _ h1,
        @List.find?_cons_of_neg _ (fun m => m.id == mid') a _ h2, ih]
    · by_cases h2 : (a.id == mid') = true
      · rw [if_neg h,
          @List.find?_cons_of_pos _ (fun m => m.id == mid') a _ h2,
          @List.find?_cons_of_pos _ (fun m => m.id == mid') a _ h2]
      · rw [if_neg h,
          @List.find?_cons_of_neg _ (fun m => m.id == mid') a _ h2,
          @List.find?_cons_of_neg _ (fun m => m.id == mid') a _ h2, ih]

lemma findMatchup_updMatchup_self (st : DBState) (mid : Nat) (f : DBMatchup → DBMatchup)
    (hf : ∀ m, (f m).id = m.id) :
    findMatchup (updMatchup st mid f) mid = (findMatchup st mid).map f :=
  find_map_ite_eq st.matchups mid f hf

lemma findMatchup_updMatchup_ne (st : DBState) (mid mid' : Nat) (f : DBMatchup → DBMatchup)
    (hf : ∀ m, (f m).id = m.id) (hne : mid' ≠ mid) :
    findMatchup (updMatchup st mid f) mid' = findMatchup st mid' :=
  find_map_ite_ne st.matchups mid mid' f hf hne

/-! ### Claim C3: advancing a completed round is rejected -/

/-- **C3** (confirmed). `advance_round` is only reachable through the `end_round_early`
route, which refuses any round whose status is not `active`: for a `completed` round it
returns the round-not-active rejection before `advance_round` runs, so no matchup, end
time, or tournament status is touched (the embedding is pure — an `error` result carries
no state change). -/
theorem end_round_early_rejects_completed_round (st : DBState) (rid : Nat) (now : Int)
    (r : DBRound) (hfind : findRound st rid = some r) (hc : r.status = .completed) :
    end_round_early st rid now = .error .roundNotActive := by
  rw [end_round_early, hfind]
  simp [hc]

/-- A completed round, for the C3 witness. -/
def c3Round : DBRound := ⟨1, 1, .completed, some 0, some 10⟩

/-- A state whose only round is already completed, for the C3 witness. -/
def c3State : DBState := ⟨[c3Round], [], [], "completed"⟩

/-- Witness for C3: a one-round state whose round is already completed. -/
theorem end_round_early_rejects_completed_round_witness :
    findRound c3State 1 = some c3Round ∧ c3Round.status = .completed ∧
    end_round_early c3State 1 99 = .error .roundNotActive :=
  ⟨by decide, rfl,
    end_round_early_rejects_completed_round c3State 1 99 c3Round (by decide) rfl⟩

/-! ### Claim C4: winner storage and propagation -/

lemma advance_matchup_step_eq (st : DBState) (cnt mid nid : Nat) (m nm : DBMatchup) (w : Nat)
    (hm : findMatchup st mid = some m) (hw : get_winner st m = some w)
    (hnext : m.next_matchup_id = some nid) (hnid : nid ≠ 0) (hne : nid ≠ mid)
    (hnm : findMatchup st nid = some nm) :
    advance_matchup_step st cnt mid =
      (if ¬ truthyN nm.song1_id then
        (updMatchup (updMatchup st mid (storeWinner w)) nm.id (fillSlot1 w), cnt + 1)
      else if ¬ truthyN nm.song2_id then
        (updMatchup (updMatchup st mid (storeWinner w)) nm.id (fillSlot2 w), cnt + 1)
      else
        (updMatchup st mid (storeWinner w), cnt)) := by
  have htr2 : truthyN (some nid) = true := by
    simp [truthyN, hnid]
  unfold advance_matchup_step
  rw [hm]
  simp only [hw, hnext, Option.getD_some, htr2, if_true]
  rw [findMatchup_updMatchup_ne st mid nid (storeWinner w) (fun _ => rfl) hne, hnm]

/-- **C4** (corrected).  The loop body of `advance_round`, for a matchup `m` with a
resolved winner `w` and a next-matchup link to row `nm`: `w` is stored on `m` and `m` is
marked completed; `w` goes into slot 1 of `nm` if that slot is empty, otherwise into
slot 2 if that slot is empty, counting one winner advanced; but when **both** slots of
`nm` are already occupied the step succeeds silently, leaving `nm` untouched and the
counter unchanged — there is no `BracketCorruption` failure. -/
theorem advance_step_stores_winner_and_fills_first_empty_slot
    (st : DBState) (cnt mid nid : Nat) (m nm : DBMatchup) (w : Nat)
    (hm : findMatchup st mid = some m) (hw : get_winner st m = some w)
    (hnext : m.next_matchup_id = some nid) (hnid : nid ≠ 0) (hne : nid ≠ mid)
    (hnm : findMatchup st nid = some nm) :
    findMatchup (advance_matchup_step st cnt mid).1 mid = some (storeWinner w m) ∧
    (¬ truthyN nm.song1_id →
      findMatchup (advance_matchup_step st cnt mid).1 nid = some (fillSlot1 w nm) ∧
      (advance_matchup_step st cnt mid).2 = cnt + 1) ∧
    (truthyN nm.song1_id → ¬ truthyN nm.song2_id →
      findMatchup (advance_matchup_step st cnt mid).1 nid = some (fillSlot2 w nm) ∧
      (advance_matchup_step st cnt mid).2 = cnt + 1) ∧
    (truthyN nm.song1_id → truthyN nm.song2_id →
      findMatchup (advance_matchup_step st cnt mid).1 nid = some nm ∧
      (advance_matchup_step st cnt mid).2 = cnt) := by
  have hnmid : nm.id = nid := by simpa using List.find?_some hnm
  have hstep := advance_matchup_step_eq st cnt mid nid m nm w hm hw hnext hnid hne hnm
  have hself : findMatchup (updMatchup st mid (storeWinner w)) mid =
      some (storeWinner w m) := by
    rw [findMatchup_updMatchup_self st mid (storeWinner w) (fun _ => rfl), hm]
    rfl
  have hother : findMatchup (updMatchup st mid (storeWinner w)) nid = some nm := by
    rw [findMatchup_updMatchup_ne st mid nid (storeWinner w) (fun _ => rfl) hne, hnm]
  have hmid_ne : mid ≠ nid := fun he => hne he.symm
  by_cases h1 : truthyN nm.song1_id = true
  · by_cases h2 : truthyN nm.song2_id = true
    · have hstep2 : advance_matchup_step st cnt mid = (updMatchup st mid (storeWinner w), cnt) := by
        rw [hstep]
        simp [h1, h2]
      refine ⟨?_, fun hc => absurd h1 hc, fun _ hc => absurd h2 hc, fun _ _ => ⟨?_, ?_⟩⟩
      · rw [hstep2]
        exact hself
      · rw [hstep2]
        exact hother
      · rw [hstep2]
    · have hstep2 : advance_matchup_step st cnt mid =
          (updMatchup (updMatchup st mid (storeWinner w)) nm.id (fillSlot2 w), cnt + 1) := by
        rw [hstep]
        simp [h1, h2]
      refine ⟨?_, fun hc => absurd h1 hc, fun _ _ => ⟨?_, ?_⟩, fun _ hc => absurd hc h2⟩
      · rw [hstep2, hnmid]
        rw [findMatchup_updMatchup_ne _ nid mid (fillSlot2 w) (fun _ => rfl) hmid_ne]
        exact hself
      · rw [hstep2, hnmid]
        rw [findMatchup_updMatchup_self _ nid (fillSlot2 w) (fun _ => rfl), hother]
        rfl
      · rw [hstep2]
  · have hstep2 : advance_matchup_step st cnt mid =
        (updMatchup (updMatchup st mid (storeWinner w)) nm.id (fillSlot1 w), cnt + 1) := by
      rw [hstep]
      simp [h1]
    refine ⟨?_, fun _ => ⟨?_, ?_⟩, fun hc _ => absurd hc h1, fun hc _ => absurd hc h1⟩
    · rw [hstep2, hnmid]
      rw [findMatchup_updMatchup_ne _ nid mid (fillSlot1 w) (fun _ => rfl) hmid_ne]
      exact hself
    · rw [hstep2, hnmid]
      rw [findMatchup_updMatchup_self _ nid (fillSlot1 w) (fun _ => rfl), hother]
      rfl
    · rw [hstep2]

/-- Matchup with a stored winner, for the C4 witness. -/
def c4m1 : DBMatchup := ⟨1, 1, some 5, some 6, some 5, some 2, .pending⟩

/-- Next-round matchup with empty slots, for the C4 witness. -/
def c4nm : DBMatchup := ⟨2, 2, none, none, none, none, .pending⟩

/-- Two-matchup state for the C4 witness. -/
def c4StepState : DBState := ⟨[], [c4m1, c4nm], [], "voting_round_1"⟩

/-- Witness for C4 at a concrete two-matchup state. -/
theorem advance_step_stores_winner_and_fills_first_empty_slot_witness :
    (findMatchup c4StepState 1 = some c4m1 ∧ get_winner c4StepState c4m1 = some 5 ∧
      c4m1.next_matchup_id = some 2 ∧ (2 : Nat) ≠ 0 ∧ (2 : Nat) ≠ 1 ∧
      findMatchup c4StepState 2 = some c4nm) ∧
    (findMatchup (advance_matchup_step c4StepState 0 1).1 1 = some (storeWinner 5 c4m1) ∧
    (¬ truthyN c4nm.song1_id →
      findMatchup (advance_matchup_step c4StepState 0 1).1 2 = some (fillSlot1 5 c4nm) ∧
      (advance_matchup_step c4StepState 0 1).2 = 0 + 1) ∧
    (truthyN c4nm.song1_id → ¬ truthyN c4nm.song2_id →
      findMatchup (advance_matchup_step c4StepState 0 1).1 2 = some (fillSlot2 5 c4nm) ∧
      (advance_matchup_step c4StepState 0 1).2 = 0 + 1) ∧
    (truthyN c4nm.song1_id → truthyN c4nm.song2_id →
      findMatchup (advance_matchup_step c4StepState 0 1).1 2 = some c4nm ∧
      (advance_matchup_step c4StepState 0 1).2 = 0)) :=
  ⟨⟨by decide, by decide, rfl, by decide, by decide, by decide⟩,
    advance_step_stores_winner_and_fills_first_empty_slot c4StepState 0 1 2 c4m1 c4nm 5
      (by decide) (by decide) rfl (by decide) (by decide) (by decide)⟩

/-- A state whose Round-1 matchup links to a next matchup that is already full of two
other songs, for the C4 counterexample. -/
def c4FullState : DBState :=
  ⟨[⟨1, 1, .active, some 0, some 100⟩, ⟨2, 2, .pending, some 100, some 200⟩],
   [⟨1, 1, some 5, some 6, some 5, some 2, .pending⟩,
    ⟨2, 2, some 7, some 8, none, none, .pending⟩],
   [], "voting_round_1"⟩

/-- The already-full next matchup of `c4FullState`. -/
def c4FullNext : DBMatchup := ⟨2, 2, some 7, some 8, none, none, .pending⟩

/-- Counterexample to C4 as stated: matchup 1's winner (song 5) links to matchup 2 whose
two slots are already filled by different songs (7 and 8); `advance_round` does **not**
fail with any `BracketCorruption`-style error — it completes normally (activating the
next round), leaves matchup 2 untouched, and reports zero winners advanced. -/
theorem advance_round_succeeds_despite_full_next_slots :
    findMatchup (advance_round c4FullState 1 50).1 2 = some c4FullNext ∧
    (advance_round c4FullState 1 50).2.winners_advanced = 0 ∧
    (advance_round c4FullState 1 50).2.tournament_completed = false ∧
    (advance_round c4FullState 1 50).2.next_round = some 2 := by
  decide

/-! ### Claim C8: ties at round close -/

lemma get_winner_eq_of_votes_eq (st0 st' : DBState) (m : DBMatchup)
    (h : st'.votes = st0.votes) : get_winner st' m = get_winner st0 m := by
  unfold get_winner get_vote_count
  rw [h]

lemma map_idnext_upd (l : List DBMatchup) (mid : Nat) (f : DBMatchup → DBMatchup)
    (hf : ∀ mm, (f mm).id = mm.id ∧ (f mm).next_matchup_id = mm.next_matchup_id) :
    (l.map fun mm => if mm.id == mid then f mm else mm).map
        (fun mm => (mm.id, mm.next_matchup_id))
      = l.map fun mm => (mm.id, mm.next_matchup_id) := by
  rw [List.map_map]
  apply List.map_congr_left
  intro a _
  by_cases h : a.id = mid
  · simp [h, (hf a).1, (hf a).2]
  · simp [h]

/-- Invariant threaded through the winner-propagation loop: a matchup `m` that no step
touches — the votes are never written, `m`'s row is intact, and every row keeps its id
and next-link. -/
def UntouchedInv (st0 st' : DBState) (m : DBMatchup) : Prop :=
  st'.votes = st0.votes ∧
  findMatchup st' m.id = some m ∧
  st'.matchups.map (fun mm => (mm.id, mm.next_matchup_id)) =
    st0.matchups.map fun mm => (mm.id, mm.next_matchup_id)

lemma step_preserves_untouched (st0 st' : DBState) (m : DBMatchup) (cnt mid : Nat)
    (hw : get_winner st0 m = none)
    (hnt : ∀ mm ∈ st0.matchups, mm.next_matchup_id ≠ some m.id)
    (hinv : UntouchedInv st0 st' m) :
    UntouchedInv st0 (advance_matchup_step st' cnt mid).1 m := by
  obtain ⟨hv, hfm, hmap⟩ := hinv
  unfold advance_matchup_step
  split
  · exact ⟨hv, hfm, hmap⟩
  next mm hfind =>
    split
    · exact ⟨hv, hfm, hmap⟩
    next w hwin =>
      have hmne : m.id ≠ mid := by
        intro he
        rw [← he, hfm] at hfind
        cases hfind
        rw [get_winner_eq_of_votes_eq st0 st' m hv, hw] at hwin
        cases hwin
      have hinv1 : UntouchedInv st0 (updMatchup st' mid (storeWinner w)) m := by
        refine ⟨hv, ?_, ?_⟩
        · rw [findMatchup_updMatchup_ne st' mid m.id (storeWinner w) (fun _ => rfl) hmne]
          exact hfm
        · rw [show (updMatchup st' mid (storeWinner w)).matchups
              = st'.matchups.map (fun mm => if mm.id == mid then storeWinner w mm else mm)
              from rfl]
          rw [map_idnext_upd st'.matchups mid (storeWinner w) (fun _ => ⟨rfl, rfl⟩)]
          exact hmap
      split
      · -- truthy next link
        next htr =>
        have hxne : mm.next_matchup_id.getD 0 ≠ m.id := by
          have hmem : mm ∈ st'.matchups := List.mem_of_find?_eq_some hfind
          have hpair : (mm.id, mm.next_matchup_id)
              ∈ st0.matchups.map (fun mm => (mm.id, mm.next_matchup_id)) := by
            rw [← hmap]
            exact List.mem_map_of_mem _ hmem
          obtain ⟨mm0, hmm0, heq⟩ := List.mem_map.1 hpair
          have hsnd : mm0.next_matchup_id = mm.next_matchup_id := congrArg Prod.snd heq
          cases hmm : mm.next_matchup_id with
          | none => rw [hmm] at htr; simp [truthyN] at htr
          | some y =>
            have : mm.next_matchup_id ≠ some m.id := by
              rw [← hsnd]
              exact hnt mm0 hmm0
            rw [hmm] at this
            simpa using this
        split
        · exact hinv1
        next nm hfind2 =>
          have hnmx : nm.id = mm.next_matchup_id.getD 0 := by
            simpa using List.find?_some hfind2
          obtain ⟨hv1, hfm1, hmap1⟩ := hinv1
          have hnmne : m.id ≠ nm.id := by
            rw [hnmx]
            exact fun he => hxne he.symm
          split
          · refine ⟨hv1, ?_, ?_⟩
            · rw [findMatchup_updMatchup_ne _ nm.id m.id (fillSlot1 w) (fun _ => rfl) hnmne]
              exact hfm1
            · rw [show (updMatchup (updMatchup st' mid (storeWinner w)) nm.id
                    (fillSlot1 w)).matchups
                  = (updMatchup st' mid (storeWinner w)).matchups.map
                      (fun mm => if mm.id == nm.id then fillSlot1 w mm else mm) from rfl]
              rw [map_idnext_upd _ nm.id (fillSlot1 w) (fun _ => ⟨rfl, rfl⟩)]
              exact hmap1
          split
          · refine ⟨hv1, ?_, ?_⟩
            · rw [findMatchup_updMatchup_ne _ nm.id m.id (fillSlot2 w) (fun _ => rfl) hnmne]
              exact hfm1
            · rw [show (updMatchup (updMatchup st' mid (storeWinner w)) nm.id
                    (fillSlot2 w)).matchups
                  = (updMatchup st' mid (storeWinner w)).matchups.map
                      (fun mm => if mm.id == nm.id then fillSlot2 w mm else mm) from rfl]
              rw [map_idnext_upd _ nm.id (fillSlot2 w) (fun _ => ⟨rfl, rfl⟩)]
              exact hmap1
          · exact ⟨hv1, hfm1, hmap1⟩
      · exact hinv1

lemma foldl_steps_untouched (st0 : DBState) (m : DBMatchup)
    (hw : get_winner st0 m = none)
    (hnt : ∀ mm ∈ st0.matchups, mm.next_matchup_id ≠ some m.id) :
    ∀ (mids : List Nat) (p : DBState × Nat),
      UntouchedInv st0 p.1 m →
      UntouchedInv st0
        (mids.foldl (fun p mid => advance_matchup_step p.1 p.2 mid) p).1 m
  | [], _, h => h
  | mid :: rest, p, h => by
    rw [List.foldl_cons]
    exact foldl_steps_untouched st0 m hw hnt rest _
      (step_preserves_untouched st0 p.1 m p.2 mid hw hnt h)

lemma advance_finish_fst_matchups (st1 : DBState) (w rid : Nat) (mids : List Nat)
    (now : Int) : (advance_finish st1 w rid mids now).1.matchups = st1.matchups := by
  unfold advance_finish
  split <;> rfl

lemma findMatchup_advance_finish (st1 : DBState) (w rid : Nat) (mids : List Nat)
    (now : Int) (x : Nat) :
    findMatchup (advance_finish st1 w rid mids now).1 x = findMatchup st1 x := by
  unfold findMatchup
  rw [advance_finish_fst_matchups]

/-- **C8** (corrected). `advance_round` never crashes on a tie — it is a total
function — but it applies **no** tie-break: a matchup of the closed round whose
`get_winner` is `none` (equal vote counts) is silently skipped.  Its row is bit-for-bit
unchanged afterwards (no winner stored, status not completed, nothing pushed to the next
round), even though the round itself is stamped completed. -/
theorem advance_round_leaves_tied_matchup_untouched (st : DBState) (rid : Nat) (now : Int)
    (m : DBMatchup)
    (hm : findMatchup st m.id = some m)
    (hw : get_winner st m = none)
    (hnt : ∀ mm ∈ st.matchups, mm.next_matchup_id ≠ some m.id) :
    findMatchup (advance_round st rid now).1 m.id = some m := by
  have hinv0 : UntouchedInv st (advRoundStamp st rid now) m := ⟨rfl, hm, rfl⟩
  have hinv : UntouchedInv st (advanceLoop (advRoundStamp st rid now) rid).1 m := by
    unfold advanceLoop
    exact foldl_steps_untouched st m hw hnt _ _ hinv0
  unfold advance_round
  rw [findMatchup_advance_finish]
  exact hinv.2.1

/-- A matchup with a 1-1 vote tie, for C8. -/
def c8Matchup : DBMatchup := ⟨1, 1, some 5, some 6, none, some 2, .pending⟩

/-- The (empty) next-round matchup the tied matchup links to, for C8. -/
def c8Next : DBMatchup := ⟨2, 2, none, none, none, none, .pending⟩

/-- An active round whose only matchup is tied 1-1, for C8. -/
def c8State : DBState :=
  ⟨[⟨1, 1, .active, some 0, some 100⟩, ⟨2, 2, .pending, some 100, some 200⟩],
   [c8Matchup, c8Next],
   [⟨10, 1, 5, false⟩, ⟨11, 1, 6, false⟩], "voting_round_1"⟩

/-- Witness for C8 at the concrete tied state. -/
theorem advance_round_leaves_tied_matchup_untouched_witness :
    (findMatchup c8State c8Matchup.id = some c8Matchup ∧
      get_winner c8State c8Matchup = none ∧
      ∀ mm ∈ c8State.matchups, mm.next_matchup_id ≠ some c8Matchup.id) ∧
    findMatchup (advance_round c8State 1 50).1 c8Matchup.id = some c8Matchup :=
  ⟨⟨by decide, by decide, by
      intro mm hmm
      simp [c8State, c8Matchup, c8Next] at hmm
      rcases hmm with h | h <;> subst h <;> decide⟩,
    advance_round_leaves_tied_matchup_untouched c8State 1 50 c8Matchup (by decide) (by decide)
      (by
        intro mm hmm
        simp [c8State, c8Matchup, c8Next] at hmm
        rcases hmm with h | h <;> subst h <;> decide)⟩

/-- Counterexample to C8 as stated: on the concrete tied round, `advance_round` runs to
completion (no crash) but resolves nothing — no matchup gets a winner, the tied matchup
is not marked completed, nothing reaches the next round's slots — while the round itself
is stamped `completed`: the tied matchup is silently dropped, with no tie-break. -/
theorem advance_round_tie_resolution_refuted :
    (advance_round c8State 1 50).1.matchups.map (·.winner_song_id) = [none, none] ∧
    findMatchup (advance_round c8State 1 50).1 2 = some c8Next ∧
    findRound (advance_round c8State 1 50).1 1 =
      some ⟨1, 1, .completed, some 0, some 50⟩ ∧
    (advance_round c8State 1 50).2.winners_advanced = 0 := by
  decide

/-! ### Claim C7: vote idempotence and one-vote-per-user -/

/-- The vote rows recorded for a matchup. -/
def matchupVotes (st : DBState) (mid : Nat) : List DBVote :=
  st.votes.filter fun v => v.matchup_id == mid

/-- The users that have voted on a matchup, in row order. -/
def votersOn (st : DBState) (mid : Nat) : List Nat := (matchupVotes st mid).map (·.user_id)

lemma updateFirstVote_filter_map_user (vs : List DBVote) (uid mid0 sid mid : Nat) :
    ((updateFirstVote vs uid mid0 sid).filter fun v => v.matchup_id == mid).map (·.user_id)
      = (vs.filter fun v => v.matchup_id == mid).map (·.user_id) := by
  induction vs with
  | nil => rfl
  | cons v t ih =>
    unfold updateFirstVote
    by_cases h : (v.user_id == uid && v.matchup_id == mid0) = true
    · rw [if_pos h]
      by_cases hm : (v.matchup_id == mid) = true <;> simp [List.filter_cons, hm]
    · rw [if_neg h]
      by_cases hm : (v.matchup_id == mid) = true <;> simp [List.filter_cons, hm, ih]

lemma find?_updateFirstVote (vs : List DBVote) (uid mid0 sid : Nat) :
    (updateFirstVote vs uid mid0 sid).find? (voteKey uid mid0)
      = (vs.find? (voteKey uid mid0)).map
          fun v => { v with song_id := sid, is_vote_changed := true } := by
  induction vs with
  | nil => rfl
  | cons v t ih =>
    unfold updateFirstVote
    by_cases h : (v.user_id == uid && v.matchup_id == mid0) = true
    · rw [if_pos h,
        @List.find?_cons_of_pos _ (voteKey uid mid0)
          { v with song_id := sid, is_vote_changed := true } _ h,
        @List.find?_cons_of_pos _ (voteKey uid mid0) v _ h]
      rfl
    · rw [if_neg h,
        @List.find?_cons_of_neg _ (voteKey uid mid0) v _ h,
        @List.find?_cons_of_neg _ (voteKey uid mid0) v _ h, ih]

lemma not_mem_votersOn_of_find_none (st : DBState) (uid mid : Nat)
    (h : st.votes.find? (voteKey uid mid) = none) :
    uid ∉ votersOn st mid := by
  intro hmem
  unfold votersOn matchupVotes at hmem
  obtain ⟨v, hv, hvu⟩ := List.mem_map.1 hmem
  obtain ⟨hvmem, hvm⟩ := List.mem_filter.1 hv
  exact absurd (by simp [voteKey, hvu, by simpa using hvm]) (List.find?_eq_none.1 h v hvmem)

/-- **C7** (confirmed). For an open matchup (active round, truthy deadline not passed,
`s` one of the matchup's slots): `castVote` succeeds; re-casting the same song leaves the
state bit-for-bit unchanged and reports `changed = false`; when the per-matchup voters
are distinct they stay distinct and the matchup's vote total equals the number of
distinct voters; casting a different song than the stored vote updates that single row
in place (reporting `changed = true`) without changing the vote total; and re-casting
the stored song is a no-op success. -/
theorem castVote_idempotent_and_counts_distinct_voters
    (st : DBState) (u mid s : Nat) (now : Int) (m : DBMatchup) (r : DBRound)
    (hm : findMatchup st mid = some m)
    (hsong : some s = m.song1_id ∨ some s = m.song2_id)
    (hr : findRound st m.round_id = some r)
    (hact : r.status = .active)
    (hdl : ¬ (truthyZ r.end_date = true ∧ now > r.end_date.getD 0)) :
    (∃ p, castVote st u mid s now = .ok p) ∧
    (∀ st₁ c, castVote st u mid s now = .ok (st₁, c) →
      castVote st₁ u mid s now = .ok (st₁, false)) ∧
    (∀ st₁ c, castVote st u mid s now = .ok (st₁, c) → (votersOn st mid).Nodup →
      (votersOn st₁ mid).Nodup ∧
      (matchupVotes st₁ mid).length = (votersOn st₁ mid).dedup.length) ∧
    (∀ v0, st.votes.find? (voteKey u mid) = some v0 → v0.song_id ≠ s →
      castVote st u mid s now =
        .ok ({ st with votes := updateFirstVote st.votes u mid s }, true) ∧
      (matchupVotes { st with votes := updateFirstVote st.votes u mid s } mid).length
        = (matchupVotes st mid).length) ∧
    (∀ v0, st.votes.find? (voteKey u mid) = some v0 → v0.song_id = s →
      castVote st u mid s now = .ok (st, false)) := by
  have hcast : ∀ (st' : DBState), st'.matchups = st.matchups → st'.rounds = st.rounds →
      castVote st' u mid s now =
        match st'.votes.find? (voteKey u mid) with
        | some existing =>
          if existing.song_id ≠ s then
            .ok ({ st' with votes := updateFirstVote st'.votes u mid s }, true)
          else .ok (st', false)
        | none => .ok ({ st' with votes := st'.votes ++ [⟨u, mid, s, false⟩] }, false) := by
    intro st' hms hrs
    have hm' : findMatchup st' mid = some m := by
      unfold findMatchup
      rw [hms]
      exact hm
    have hr' : findRound st' m.round_id = some r := by
      unfold findRound
      rw [hrs]
      exact hr
    unfold castVote
    rw [hm']
    simp only [if_neg (show ¬ ¬ (some s = m.song1_id ∨ some s = m.song2_id)
      from fun hc => hc hsong)]
    rw [hr']
    simp only [if_neg (show ¬ (r.status ≠ RowStatus.active) from fun hc => hc hact),
      if_neg hdl]
  have hcount : ∀ st₁ : DBState, (votersOn st₁ mid).Nodup →
      (matchupVotes st₁ mid).length = (votersOn st₁ mid).dedup.length := by
    intro st₁ hnd
    rw [List.dedup_eq_self.2 hnd]
    exact (List.length_map _ _).symm
  cases hv : st.votes.find? (voteKey u mid) with
  | none =>
    have hc1 : castVote st u mid s now =
        .ok ({ st with votes := st.votes ++ [⟨u, mid, s, false⟩] }, false) := by
      rw [hcast st rfl rfl, hv]
    have hnewfind : ({ st with votes := st.votes ++ [⟨u, mid, s, false⟩] }
        : DBState).votes.find? (voteKey u mid) = some ⟨u, mid, s, false⟩ := by
      show (st.votes ++ [(⟨u, mid, s, false⟩ : DBVote)]).find? (voteKey u mid) = _
      rw [List.find?_append, hv]
      simp [voteKey]
    have hvoters : votersOn { st with votes := st.votes ++ [⟨u, mid, s, false⟩] } mid
        = votersOn st mid ++ [u] := by
      unfold votersOn matchupVotes
      show ((st.votes ++ [(⟨u, mid, s, false⟩ : DBVote)]).filter _).map _ = _
      rw [List.filter_append]
      simp
    refine ⟨⟨_, hc1⟩, ?_, ?_, ?_, ?_⟩
    · intro st₁ c h
      rw [hc1] at h
      injection Except.ok.inj h with h1 h2
      subst h1
      subst h2
      rw [hcast { st with votes := st.votes ++ [⟨u, mid, s, false⟩] } rfl rfl, hnewfind]
      simp
    · intro st₁ c h hnd
      rw [hc1] at h
      injection Except.ok.inj h with h1 h2
      subst h1
      have hnd' : (votersOn { st with votes := st.votes ++ [⟨u, mid, s, false⟩] } mid).Nodup := by
        rw [hvoters]
        rw [List.nodup_append]
        refine ⟨hnd, List.nodup_singleton u, ?_⟩
        intro a ha hb
        rw [List.mem_singleton.1 hb] at ha
        exact not_mem_votersOn_of_find_none st u mid hv ha
      exact ⟨hnd', hcount _ hnd'⟩
    · intro v0 hfind
      cases hfind
    · intro v0 hfind
      cases hfind
  | some v0 =>
    by_cases hs : v0.song_id = s
    · have hc1 : castVote st u mid s now = .ok (st, false) := by
        rw [hcast st rfl rfl, hv]
        simp [hs]
      refine ⟨⟨_, hc1⟩, ?_, ?_, ?_, ?_⟩
      · intro st₁ c h
        rw [hc1] at h
        injection Except.ok.inj h with h1 h2
        subst h1
        exact hc1
      · intro st₁ c h hnd
        rw [hc1] at h
        injection Except.ok.inj h with h1 h2
        subst h1
        exact ⟨hnd, hcount st hnd⟩
      · intro v0' hfind hne
        cases hfind
        exact absurd hs hne
      · intro v0' hfind heq
        exact hc1
    · have hc1 : castVote st u mid s now =
          .ok ({ st with votes := updateFirstVote st.votes u mid s }, true) := by
        rw [hcast st rfl rfl, hv]
        simp [hs]
      have hvoters : votersOn { st with votes := updateFirstVote st.votes u mid s } mid
          = votersOn st mid := by
        unfold votersOn matchupVotes
        exact updateFirstVote_filter_map_user st.votes u mid s mid
      have hlen : (matchupVotes { st with votes := updateFirstVote st.votes u mid s } mid).length
          = (matchupVotes st mid).length := by
        have h1 := congrArg List.length hvoters
        unfold votersOn at h1
        rw [List.length_map, List.length_map] at h1
        exact h1
      refine ⟨⟨_, hc1⟩, ?_, ?_, ?_, ?_⟩
      · intro st₁ c h
        rw [hc1] at h
        injection Except.ok.inj h with h1 h2
        subst h1
        subst h2
        rw [hcast { st with votes := updateFirstVote st.votes u mid s } rfl rfl]
        rw [show ({ st with votes := updateFirstVote st.votes u mid s }
            : DBState).votes.find? (voteKey u mid)
            = some { v0 with song_id := s, is_vote_changed := true } by
          show (updateFirstVote st.votes u mid s).find? (voteKey u mid) = _
          rw [find?_updateFirstVote, hv]
          rfl]
        simp
      · intro st₁ c h hnd
        rw [hc1] at h
        injection Except.ok.inj h with h1 h2
        subst h1
        have hnd' : (votersOn { st with votes := updateFirstVote st.votes u mid s } mid).Nodup := by
          rw [hvoters]
          exact hnd
        exact ⟨hnd', hcount _ hnd'⟩
      · intro v0' hfind hne
        cases hfind
        exact ⟨hc1, hlen⟩
      · intro v0' hfind heq
        cases hfind
        exact absurd heq hs

/-- An open matchup (songs 5 and 6) for the C7 witness. -/
def c7Matchup : DBMatchup := ⟨1, 1, some 5, some 6, none, none, .active⟩

/-- Its active round, for the C7 witness. -/
def c7Round : DBRound := ⟨1, 1, .active, some 0, some 100⟩

/-- A voting-open state for the C7 witness. -/
def c7State : DBState := ⟨[c7Round], [c7Matchup], [], "voting_round_1"⟩

/-- Witness for C7: user 9 voting for song 5 on the open matchup. -/
theorem castVote_idempotent_and_counts_distinct_voters_witness :
    (findMatchup c7State 1 = some c7Matchup ∧
      (some 5 = c7Matchup.song1_id ∨ some 5 = c7Matchup.song2_id) ∧
      findRound c7State c7Matchup.round_id = some c7Round ∧
      c7Round.status = .active ∧
      ¬ (truthyZ c7Round.end_date = true ∧ (50 : Int) > c7Round.end_date.getD 0)) ∧
    ((∃ p, castVote c7State 9 1 5 50 = .ok p) ∧
    (∀ st₁ c, castVote c7State 9 1 5 50 = .ok (st₁, c) →
      castVote st₁ 9 1 5 50 = .ok (st₁, false)) ∧
    (∀ st₁ c, castVote c7State 9 1 5 50 = .ok (st₁, c) → (votersOn c7State 1).Nodup →
      (votersOn st₁ 1).Nodup ∧
      (matchupVotes st₁ 1).length = (votersOn st₁ 1).dedup.length) ∧
    (∀ v0, c7State.votes.find? (voteKey 9 1) = some v0 → v0.song_id ≠ 5 →
      castVote c7State 9 1 5 50 =
        .ok ({ c7State with votes := updateFirstVote c7State.votes 9 1 5 }, true) ∧
      (matchupVotes { c7State with votes := updateFirstVote c7State.votes 9 1 5 } 1).length
        = (matchupVotes c7State 1).length) ∧
    (∀ v0, c7State.votes.find? (voteKey 9 1) = some v0 → v0.song_id = 5 →
      castVote c7State 9 1 5 50 = .ok (c7State, false))) :=
  ⟨⟨by decide, by decide, by decide, rfl, by decide⟩,
    castVote_idempotent_and_counts_distinct_voters c7State 9 1 5 50 c7Matchup c7Round
      (by decide) (by decide) (by decide) rfl (by decide)⟩

/-! ### Claim C9: deadline-extension cascade -/

lemma round_eq_of_id (st : DBState) (rid : Nat) (r0 : DBRound)
    (hfind : findRound st rid = some r0)
    (hids : (st.rounds.map (·.id)).Nodup)
    (a : DBRound) (ha : a ∈ st.rounds) (haid : a.id = rid) : a = r0 := by
  have hr0 : r0 ∈ st.rounds := List.mem_of_find?_eq_some hfind
  have hr0id : r0.id = rid := by simpa using List.find?_some hfind
  exact List.inj_on_of_nodup_map hids ha hr0 (by rw [haid, hr0id])

/-- How one row comes out of the extension pipeline (target bump then cascade), split by
the three claim cases. -/
lemma extend_transform_cases (r0 : DBRound) (rid : Nat) (H now : Int) (a : DBRound)
    (htrs : truthyZ a.start_date = true) (htre : truthyZ a.end_date = true) :
    (a.id = rid → a.round_number = r0.round_number →
      cascadeRow r0.round_number H (if a.id == rid then extendTargetRow H now a else a)
        = { a with end_date := some (a.end_date.getD 0 + H * 3600) }) ∧
    (a.id ≠ rid → a.round_number > r0.round_number →
      cascadeRow r0.round_number H (if a.id == rid then extendTargetRow H now a else a)
        = { a with start_date := some (a.start_date.getD 0 + H * 3600),
                   end_date := some (a.end_date.getD 0 + H * 3600) }) ∧
    (a.id ≠ rid → ¬ a.round_number > r0.round_number →
      cascadeRow r0.round_number H (if a.id == rid then extendTargetRow H now a else a)
        = a) := by
  refine ⟨?_, ?_, ?_⟩
  · intro haid hnum
    rw [if_pos (by simp [haid])]
    unfold extendTargetRow cascadeRow
    simp [htre, hnum]
  · intro hneq hgt
    rw [if_neg (by simp [hneq])]
    unfold cascadeRow
    simp [htrs, htre, hgt]
  · intro hneq hngt
    rw [if_neg (by simp [hneq])]
    unfold cascadeRow
    simp [hngt]

/-- The conclusion of claim C9 (stated over the original rows by index): the extension
succeeds; the target round keeps its start and gains `H` hours of end time; every
higher-numbered round shifts start and end by `H` hours with duration preserved; other
rounds are untouched; consecutive rounds that did not overlap still do not. -/
def ExtensionCascade (st : DBState) (rid : Nat) (H now : Int) (r0 : DBRound) : Prop :=
  ∃ st', extend_round st rid H now = .ok st' ∧
    st'.rounds.length = st.rounds.length ∧
    (∀ i, i < st.rounds.length →
      ((st.rounds.getD i default).id = rid →
        (st'.rounds.getD i default)
          = { st.rounds.getD i default with
              end_date := some ((st.rounds.getD i default).end_date.getD 0 + H * 3600) }) ∧
      ((st.rounds.getD i default).id ≠ rid →
        (st.rounds.getD i default).round_number > r0.round_number →
        (st'.rounds.getD i default)
          = { st.rounds.getD i default with
              start_date :=
                some ((st.rounds.getD i default).start_date.getD 0 + H * 3600),
              end_date := some ((st.rounds.getD i default).end_date.getD 0 + H * 3600) } ∧
        (st'.rounds.getD i default).end_date.getD 0
            - (st'.rounds.getD i default).start_date.getD 0
          = (st.rounds.getD i default).end_date.getD 0
            - (st.rounds.getD i default).start_date.getD 0) ∧
      ((st.rounds.getD i default).id ≠ rid →
        ¬ (st.rounds.getD i default).round_number > r0.round_number →
        st'.rounds.getD i default = st.rounds.getD i default)) ∧
    (∀ i j, i < st.rounds.length → j < st.rounds.length →
      (st.rounds.getD j default).round_number
        = (st.rounds.getD i default).round_number + 1 →
      (st.rounds.getD i default).end_date.getD 0
        ≤ (st.rounds.getD j default).start_date.getD 0 →
      (st'.rounds.getD i default).end_date.getD 0
        ≤ (st'.rounds.getD j default).start_date.getD 0)

/-- **C9** (confirmed). Extending a scheduled round (unique ids and round numbers, all
start/end times set, as the bracket builder creates them) by `H` hours: the operation
succeeds; the target round keeps its start time and its end time moves forward by exactly
`H` hours; every round with a larger round number has both its start and end times
shifted forward by exactly `H` hours, preserving its duration; rounds at or below the
target's number are untouched; and any pair of consecutively numbered rounds that did
not overlap before still does not overlap. -/
theorem extend_round_shifts_later_rounds (st : DBState) (rid : Nat) (H now : Int)
    (r0 : DBRound)
    (hfind : findRound st rid = some r0)
    (hst : r0.status = .active ∨ r0.status = .pending)
    (hids : (st.rounds.map (·.id)).Nodup)
    (hnums : (st.rounds.map (·.round_number)).Nodup)
    (hdates : ∀ rr ∈ st.rounds,
      truthyZ rr.start_date = true ∧ truthyZ rr.end_date = true) :
    ExtensionCascade st rid H now r0 := by
  unfold ExtensionCascade
  have hr0mem : r0 ∈ st.rounds := List.mem_of_find?_eq_some hfind
  have hr0id : r0.id = rid := by simpa using List.find?_some hfind
  have hok : extend_round st rid H now =
      .ok { updRound st rid (extendTargetRow H now) with
            rounds := (updRound st rid (extendTargetRow H now)).rounds.map
              (cascadeRow r0.round_number H) } := by
    unfold extend_round
    rw [hfind]
    show (if r0.status ≠ RowStatus.active ∧ r0.status ≠ RowStatus.pending
        then (Except.error RouteError.roundNotExtendable : Except RouteError DBState)
        else .ok { updRound st rid (extendTargetRow H now) with
            rounds := (updRound st rid (extendTargetRow H now)).rounds.map
              (cascadeRow r0.round_number H) }) = _
    rw [if_neg (show ¬ (r0.status ≠ RowStatus.active ∧ r0.status ≠ RowStatus.pending) by
      rintro ⟨h1, h2⟩
      rcases hst with h | h
      · exact h1 h
      · exact h2 h)]
  refine ⟨_, hok, ?_, ?_, ?_⟩
  case _ =>
    show ((st.rounds.map fun rr => if rr.id == rid then extendTargetRow H now rr else rr).map
      (cascadeRow r0.round_number H)).length = st.rounds.length
    rw [List.length_map, List.length_map]
  all_goals {
    have hrow : ∀ i, i < st.rounds.length →
        ({ updRound st rid (extendTargetRow H now) with
            rounds := (updRound st rid (extendTargetRow H now)).rounds.map
              (cascadeRow r0.round_number H) } : DBState).rounds.getD i default
          = cascadeRow r0.round_number H
              (if (st.rounds.getD i default).id == rid then
                extendTargetRow H now (st.rounds.getD i default)
              else st.rounds.getD i default) := by
      intro i hi
      have hi2 : i < ((st.rounds.map fun rr =>
          if rr.id == rid then extendTargetRow H now rr else rr).map
            (cascadeRow r0.round_number H)).length := by
        rw [List.length_map, List.length_map]
        exact hi
      show ((st.rounds.map fun rr => if rr.id == rid then extendTargetRow H now rr else rr).map
        (cascadeRow r0.round_number H)).getD i default = _
      rw [List.getD_eq_getElem _ _ hi2, List.getElem_map, List.getElem_map,
        List.getD_eq_getElem _ _ hi]
    first
    | -- per-index conclusions
      (intro i hi
       have hmem : st.rounds.getD i default ∈ st.rounds := by
         rw [List.getD_eq_getElem _ _ hi]
         exact List.getElem_mem hi
       obtain ⟨htrs, htre⟩ := hdates _ hmem
       obtain ⟨hc1, hc2, hc3⟩ :=
         extend_transform_cases r0 rid H now (st.rounds.getD i default) htrs htre
       refine ⟨?_, ?_, ?_⟩
       · intro haid
         have haeq : st.rounds.getD i default = r0 :=
           round_eq_of_id st rid r0 hfind hids _ hmem haid
         rw [hrow i hi, hc1 haid (by rw [haeq])]
       · intro hneq hgt
         constructor
         · rw [hrow i hi, hc2 hneq hgt]
         · rw [hrow i hi, hc2 hneq hgt]
           simp only [Option.getD_some]
           omega
       · intro hneq hngt
         rw [hrow i hi, hc3 hneq hngt])
    | -- consecutive rounds stay non-overlapping
      (intro i j hi hj hnum hinit
       have hmemi : st.rounds.getD i default ∈ st.rounds := by
         rw [List.getD_eq_getElem _ _ hi]
         exact List.getElem_mem hi
       have hmemj : st.rounds.getD j default ∈ st.rounds := by
         rw [List.getD_eq_getElem _ _ hj]
         exact List.getElem_mem hj
       obtain ⟨htrsi, htrei⟩ := hdates _ hmemi
       obtain ⟨htrsj, htrej⟩ := hdates _ hmemj
       obtain ⟨hci1, hci2, hci3⟩ :=
         extend_transform_cases r0 rid H now (st.rounds.getD i default) htrsi htrei
       obtain ⟨hcj1, hcj2, hcj3⟩ :=
         extend_transform_cases r0 rid H now (st.rounds.getD j default) htrsj htrej
       by_cases haid : (st.rounds.getD i default).id = rid
       · have haeq : st.rounds.getD i default = r0 :=
           round_eq_of_id st rid r0 hfind hids _ hmemi haid
         have hbne : (st.rounds.getD j default).id ≠ rid := by
           intro hbid
           have hbeq : st.rounds.getD j default = r0 :=
             round_eq_of_id st rid r0 hfind hids _ hmemj hbid
           rw [haeq, hbeq] at hnum
           omega
         have hbgt : (st.rounds.getD j default).round_number > r0.round_number := by
           rw [← haeq]
           omega
         rw [hrow i hi, hci1 haid (by rw [haeq]), hrow j hj, hcj2 hbne hbgt]
         simp only [Option.getD_some]
         omega
       · by_cases hgt : (st.rounds.getD i default).round_number > r0.round_number
         · have hbne : (st.rounds.getD j default).id ≠ rid := by
             intro hbid
             have hbeq : st.rounds.getD j default = r0 :=
               round_eq_of_id st rid r0 hfind hids _ hmemj hbid
             rw [hbeq] at hnum
             omega
           have hbgt : (st.rounds.getD j default).round_number > r0.round_number := by
             omega
           rw [hrow i hi, hci2 haid hgt, hrow j hj, hcj2 hbne hbgt]
           simp only [Option.getD_some]
           omega
         · by_cases hbid : (st.rounds.getD j default).id = rid
           · have hbeq : st.rounds.getD j default = r0 :=
               round_eq_of_id st rid r0 hfind hids _ hmemj hbid
             rw [hrow i hi, hci3 haid hgt, hrow j hj, hcj1 hbid (by rw [hbeq])]
             simpa using hinit
           · by_cases hbgt : (st.rounds.getD j default).round_number > r0.round_number
             · exfalso
               have hanum : (st.rounds.getD i default).round_number = r0.round_number := by
                 omega
               have haeq : st.rounds.getD i default = r0 :=
                 List.inj_on_of_nodup_map hnums hmemi hr0mem (by rw [hanum])
               exact haid (by rw [haeq, hr0id])
             · rw [hrow i hi, hci3 haid hgt, hrow j hj, hcj3 hbid hbgt]
               exact hinit)
  }

/-- The active round of the C9 witness schedule. -/
def c9Round2 : DBRound := ⟨2, 2, .active, some 20, some 30⟩

/-- A three-round back-to-back schedule, for the C9 witness. -/
def c9State : DBState :=
  ⟨[⟨1, 1, .completed, some 10, some 20⟩, c9Round2, ⟨3, 3, .pending, some 30, some 40⟩],
   [], [], "voting_round_2"⟩

/-- Witness for C9: extending the active round of the concrete schedule by 24 hours. -/
theorem extend_round_shifts_later_rounds_witness :
    (findRound c9State 2 = some c9Round2 ∧
      (c9Round2.status = .active ∨ c9Round2.status = .pending) ∧
      (c9State.rounds.map (·.id)).Nodup ∧
      (c9State.rounds.map (·.round_number)).Nodup ∧
      (∀ rr ∈ c9State.rounds,
        truthyZ rr.start_date = true ∧ truthyZ rr.end_date = true)) ∧
    ExtensionCascade c9State 2 24 25 c9Round2 :=
  ⟨⟨by decide, Or.inl rfl, by decide, by decide, by
      intro rr hrr
      simp [c9State, c9Round2] at hrr
      rcases hrr with h | h | h <;> subst h <;> decide⟩,
    extend_round_shifts_later_rounds c9State 2 24 25 c9Round2 (by decide) (Or.inl rfl)
      (by decide) (by decide)
      (by
        intro rr hrr
        simp [c9State, c9Round2] at hrr
        rcases hrr with h | h | h <;> subst h <;> decide)⟩

/-! ### Seeding (`TournamentService.seed_songs`, lines 69-94; claim C10)

`sorted(songs, key=lambda s: (s.popularity is not None, s.popularity or 0,
-s.created_at), reverse=True)` — a stable descending sort on the key triple.  A stable
sort is uniquely determined by the comparator, so the stable `List.insertionSort` with
the matching non-strict descending relation produces the identical list. -/

/-- A `songs` row (the fields seeding reads). -/
structure Song where
  id : Nat
  popularity : Option Int
  created_at : Int
  deriving Repr, DecidableEq

/-- The Python sort key `(s.popularity is not None, s.popularity if ... else 0,
-s.created_at)`, with `False/True` as `0/1`. -/
def seedKey (s : Song) : Int × Int × Int :=
  ((if s.popularity.isSome then 1 else 0), s.popularity.getD 0, -s.created_at)

/-- Lexicographic order on key triples (Python tuple comparison). -/
def keyLe (a b : Int × Int × Int) : Prop :=
  a.1 < b.1 ∨ (a.1 = b.1 ∧ (a.2.1 < b.2.1 ∨ (a.2.1 = b.2.1 ∧ a.2.2 ≤ b.2.2)))

instance : DecidableRel keyLe := fun a b => by
  unfold keyLe
  infer_instance

/-- `reverse=True`: descending in the key. -/
def songLe (a b : Song) : Prop := keyLe (seedKey b) (seedKey a)

instance : DecidableRel songLe := fun a b => by
  unfold songLe
  infer_instance

lemma keyLe_total (a b : Int × Int × Int) : keyLe a b ∨ keyLe b a := by
  rcases a with ⟨a1, a2, a3⟩
  rcases b with ⟨b1, b2, b3⟩
  simp only [keyLe]
  omega

lemma keyLe_trans {a b c : Int × Int × Int} (h1 : keyLe a b) (h2 : keyLe b c) : keyLe a c := by
  rcases a with ⟨a1, a2, a3⟩
  rcases b with ⟨b1, b2, b3⟩
  rcases c with ⟨c1, c2, c3⟩
  simp only [keyLe] at h1 h2 ⊢
  omega

lemma keyLe_antisymm {a b : Int × Int × Int} (h1 : keyLe a b) (h2 : keyLe b a) : a = b := by
  rcases a with ⟨a1, a2, a3⟩
  rcases b with ⟨b1, b2, b3⟩
  simp only [keyLe] at h1 h2
  obtain ⟨e1, e2, e3⟩ : a1 = b1 ∧ a2 = b2 ∧ a3 = b3 := by omega
  rw [e1, e2, e3]

instance : IsTotal Song songLe :=
  ⟨fun a b => by
    unfold songLe
    exact keyLe_total (seedKey b) (seedKey a)⟩

instance : IsTrans Song songLe :=
  ⟨fun a b c hab hbc => by
    unfold songLe at hab hbc ⊢
    exact keyLe_trans hbc hab⟩

/-- `TournamentService.seed_songs` as a pure function: the stable descending sort. -/
def seed_songs (songs : List Song) : List Song := List.insertionSort songLe songs

lemma songLe_implication (x y : Song) (h : songLe x y) :
    (y.popularity.isSome = true → x.popularity.isSome = true) ∧
    (x.popularity = none → y.popularity = none → x.created_at ≤ y.created_at) := by
  unfold songLe keyLe seedKey at h
  constructor
  · intro hy
    cases hxp : x.popularity.isSome with
    | true => rfl
    | false =>
      exfalso
      simp [hy, hxp] at h
  · intro hx hy2
    simp [hx, hy2] at h
    omega

/-- Two sorted permutations agree when the order is antisymmetric on their members. -/
lemma eq_of_perm_of_sorted_antisymm {α : Type} (r : α → α → Prop) :
    ∀ (l₁ l₂ : List α), l₁.Perm l₂ → List.Sorted r l₁ → List.Sorted r l₂ →
      (∀ x ∈ l₁, ∀ y ∈ l₁, r x y → r y x → x = y) → l₁ = l₂
  | [], l₂, hp, _, _, _ => hp.nil_eq
  | a :: t₁, l₂, hp, hs₁, hs₂, hanti => by
    cases l₂ with
    | nil =>
      have := hp.eq_nil
      cases this
    | cons b t₂ =>
      have hab : a = b := by
        by_contra hne
        have ha2 : a ∈ b :: t₂ := hp.mem_iff.1 (List.mem_cons_self a t₁)
        have hb1 : b ∈ a :: t₁ := hp.symm.mem_iff.1 (List.mem_cons_self b t₂)
        have hat2 : a ∈ t₂ := by
          rcases List.mem_cons.1 ha2 with h | h
          · exact absurd h hne
          · exact h
        have hbt1 : b ∈ t₁ := by
          rcases List.mem_cons.1 hb1 with h | h
          · exact absurd h.symm hne
          · exact h
        have hr1 : r a b := List.rel_of_sorted_cons hs₁ b hbt1
        have hr2 : r b a := List.rel_of_sorted_cons hs₂ a hat2
        exact hne (hanti a (List.mem_cons_self a t₁) b (List.mem_cons_of_mem a hbt1) hr1 hr2)
      subst hab
      have ht := eq_of_perm_of_sorted_antisymm r t₁ t₂ hp.cons_inv hs₁.of_cons hs₂.of_cons
        fun x hx y hy hxy hyx =>
          hanti x (List.mem_cons_of_mem a hx) y (List.mem_cons_of_mem a hy) hxy hyx
      rw [ht]

/-- **C10** (corrected). The seeded order is a permutation of the input in which every
song with a present popularity precedes every song with an absent one, and among
absent-popularity songs earlier submission comes first; the output is a deterministic
function of the input *sequence*, and is invariant under reordering of the input
whenever no two songs share the same seeding key — but not in general (see the
counterexample). -/
theorem seed_songs_ordering_and_determinism (songs : List Song) :
    (seed_songs songs).Perm songs ∧
    List.Pairwise (fun x y =>
      (y.popularity.isSome = true → x.popularity.isSome = true) ∧
      (x.popularity = none → y.popularity = none → x.created_at ≤ y.created_at))
      (seed_songs songs) ∧
    (∀ songs₂, songs.Perm songs₂ →
      (∀ x ∈ songs, ∀ y ∈ songs, seedKey x = seedKey y → x = y) →
      seed_songs songs = seed_songs songs₂) := by
  refine ⟨List.perm_insertionSort songLe songs, ?_, ?_⟩
  · exact List.Pairwise.imp (fun h => songLe_implication _ _ h)
      (List.sorted_insertionSort songLe songs)
  · intro songs₂ hperm hinj
    apply eq_of_perm_of_sorted_antisymm songLe
    · exact ((List.perm_insertionSort songLe songs).trans hperm).trans
        (List.perm_insertionSort songLe songs₂).symm
    · exact List.sorted_insertionSort songLe songs
    · exact List.sorted_insertionSort songLe songs₂
    · intro x hx y hy hxy hyx
      have hxs : x ∈ songs := (List.perm_insertionSort songLe songs).mem_iff.1 hx
      have hys : y ∈ songs := (List.perm_insertionSort songLe songs).mem_iff.1 hy
      exact hinj x hxs y hys (keyLe_antisymm hyx hxy)

/-- Two distinct songs tied on both (absent) popularity and submission time, for the C10
counterexample. -/
def tieSongA : Song := ⟨1, none, 5⟩

/-- See `tieSongA`. -/
def tieSongB : Song := ⟨2, none, 5⟩

/-- Counterexample to C10 as stated: the seeded order is **not** a deterministic
function of the input set — the two orderings of the same two-song set (tied on
popularity absence and submission time) sort to different lists, because the sort is
stable and the key cannot separate them. -/
theorem seed_songs_depends_on_input_order :
    ([tieSongA, tieSongB] : List Song).Perm [tieSongB, tieSongA] ∧
    seed_songs [tieSongA, tieSongB] = [tieSongA, tieSongB] ∧
    seed_songs [tieSongB, tieSongA] = [tieSongB, tieSongA] ∧
    seed_songs [tieSongA, tieSongB] ≠ seed_songs [tieSongB, tieSongA] :=
  ⟨List.Perm.swap tieSongB tieSongA [], by decide, by decide, by decide⟩

/-! ### Claim C5: fewer than two songs -/

/-- Errors of the `build_bracket` route's validation (`tournaments/routes.py` 333-342).
`insufficientSongs` is the 'cannot build bracket with fewer than 2 songs' rejection. -/
inductive BuildError
  | wrongStatus | insufficientSongs
  deriving Repr, DecidableEq

/-- The `build_bracket` route's pre-checks: tournament must be in `registration` status
and have at least 2 songs, otherwise the request is rejected before anything is
created. -/
def build_bracket_guard (status : String) (songCount : Nat) : Except BuildError Unit :=
  if status ≠ "registration" then .error .wrongStatus
  else if songCount < 2 then .error .insufficientSongs
  else .ok ()

/-- The dict returned by `TournamentService.generate_matchups` (lines 109-117,
205-211). -/
structure MatchupsResult where
  round_1_matchups : List BMatchup
  total_matchups : Nat
  num_byes : Nat
  deriving Repr, DecidableEq

/-- `generate_matchups`' return value: for fewer than 2 songs it returns the empty dict
(line 117) — a successful value, not an error. -/
def generate_matchups_result (seeds : List Nat) : MatchupsResult :=
  if seeds.length < 2 then ⟨[], 0, 0⟩
  else ⟨(generate_matchups seeds).headD [],
        ((generate_matchups seeds).map List.length).sum, numByes seeds.length⟩

/-- **C5** (corrected). With fewer than 2 songs the `build_bracket` route rejects the
request (before any round or matchup is created), and the service layer creates
nothing: `generate_matchups` returns no rounds and the empty result dict — but as a
silent success, not a typed error; and `seed_songs` does not fail at all, returning the
song list unchanged. -/
theorem under_two_songs_rejected_but_not_typed (songs : List Song)
    (h2 : songs.length < 2) :
    build_bracket_guard "registration" songs.length = .error .insufficientSongs ∧
    generate_matchups (songs.map (·.id)) = [] ∧
    generate_matchups_result (songs.map (·.id)) = ⟨[], 0, 0⟩ ∧
    seed_songs songs = songs := by
  have hlen : (songs.map (·.id)).length < 2 := by
    rw [List.length_map]
    exact h2
  refine ⟨?_, ?_, ?_, ?_⟩
  · unfold build_bracket_guard
    rw [if_neg (by simp), if_pos h2]
  · unfold generate_matchups
    rw [if_pos hlen]
  · unfold generate_matchups_result
    rw [if_pos hlen]
  · match songs, h2 with
    | [], _ => rfl
    | [a], _ => rfl

/-- Witness for C5 at a single-song input. -/
theorem under_two_songs_rejected_but_not_typed_witness :
    ([⟨7, some 40, 5⟩] : List Song).length < 2 ∧
    (build_bracket_guard "registration" ([⟨7, some 40, 5⟩] : List Song).length
        = .error .insufficientSongs ∧
      generate_matchups (([⟨7, some 40, 5⟩] : List Song).map (·.id)) = [] ∧
      generate_matchups_result (([⟨7, some 40, 5⟩] : List Song).map (·.id)) = ⟨[], 0, 0⟩ ∧
      seed_songs [⟨7, some 40, 5⟩] = [⟨7, some 40, 5⟩]) :=
  ⟨by decide, under_two_songs_rejected_but_not_typed [⟨7, some 40, 5⟩] (by decide)⟩

/-- Counterexample to C5 as stated: on a one-song tournament `seed_songs` does **not**
fail with any typed error — it successfully returns the song list — and
`generate_matchups` returns the silently empty success dict the claim rules out. -/
theorem seed_songs_single_song_succeeds :
    seed_songs [⟨7, some 40, 5⟩] = [⟨7, some 40, 5⟩] ∧
    generate_matchups_result [7] = ⟨[], 0, 0⟩ := by
  constructor
  · decide
  · decide

end AuxAnalytics
